import Mathlib

/-!
Shallow embedding of the OAuth credential lifecycle manager of the
Zoho-CRM-MCP repository (file `src/zoho_auth.py`, class `ZohoAuth`),
together with theorems settling the specification claims about it.

Modelling conventions:
* Timestamps (`time.time()`, `expires_at`, `expires_in`) are integers.
* Python `None` becomes `Option.none`; Python truthiness of strings and
  numbers (`if not self.refresh_token:` is also taken for `""`,
  `if not self.token_expires_at:` also for `0`) is modelled explicitly.
* The outside world (clock, the three HTTP endpoints, the redirect
  listener's incoming requests) is an explicit oracle `Env`; each
  operation returns its result, the new in-memory/durable state, and the
  list of network calls it issued.
* The durable token file is part of the state (`World.file`); for the
  atomicity claim the byte-level write is additionally modelled as a
  sequence of file-system operations (`FileOp`).
-/

namespace ZohoCRMMCP

/-- Static configuration of `ZohoAuth.__init__` that the modelled
operations actually consult: the default API domain and the scope. -/
structure Config where
  api_domain : String
  scope : String
deriving Repr, DecidableEq

/-- The mutable credential fields of a `ZohoAuth` instance:
`access_token`, `refresh_token`, `token_expires_at`,
`api_domain_for_tokens`. -/
structure AuthState where
  access_token : Option String
  refresh_token : Option String
  token_expires_at : Option Int
  api_domain_for_tokens : Option String
deriving Repr, DecidableEq

/-- The field values right after `__init__` sets them (all `None`), which
is also what `revoke_tokens` resets them to. -/
def initState : AuthState := ⟨none, none, none, none⟩

/-- A parsed provider token-endpoint JSON response; `none` means the key
is absent from the response object. -/
structure TokenResponse where
  access_token : Option String := none
  refresh_token : Option String := none
  expires_in : Option Int := none
  api_domain : Option String := none
  token_type : Option String := none
  scope : Option String := none
deriving Repr, DecidableEq

/-- The record `_save_tokens` writes to the token file. -/
structure TokenData where
  access_token : Option String
  refresh_token : Option String
  expires_at : Int
  api_domain : String
  token_type : String
  scope : String
deriving Repr, DecidableEq

/-- Python truthiness of an optional string: `None` and `""` are falsy. -/
def truthyStr : Option String → Bool
  | none => false
  | some s => if s = "" then false else true

/-- Python `a or b` for an optional string `a` with a string default. -/
def pyOrStr (a : Option String) (b : String) : String :=
  match a with
  | none => b
  | some s => if s = "" then b else s

/-- Python `d.get(k, default)` where the default is itself optional. -/
def getOpt {α : Type} : Option α → Option α → Option α
  | none, d => d
  | some x, _ => some x

/-- `ZohoAuth._save_tokens`: computes `expires_at = now + expires_in`
(default 3600), merges the response with the held refresh token /
api domain / scope, writes the record, then updates the instance
fields from the written record.  Returns (new fields, written record). -/
def save_tokens (cfg : Config) (now : Int) (st : AuthState)
    (tr : TokenResponse) : AuthState × TokenData :=
  let expires_at : Int := now + tr.expires_in.getD 3600
  let td : TokenData :=
    { access_token := tr.access_token
      refresh_token := getOpt tr.refresh_token st.refresh_token
      expires_at := expires_at
      api_domain := (getOpt tr.api_domain
        (some (pyOrStr st.api_domain_for_tokens cfg.api_domain))).getD cfg.api_domain
      token_type := tr.token_type.getD "Bearer"
      scope := tr.scope.getD cfg.scope }
  (⟨td.access_token, td.refresh_token, some td.expires_at, some td.api_domain⟩, td)

/-- In-memory fields together with the durable token-file content
(`none` = the file is absent). -/
structure World where
  st : AuthState
  file : Option TokenData
deriving Repr, DecidableEq

/-- `_save_tokens` acting on a `World`: the file is written and the
instance fields updated. -/
def save_world (cfg : Config) (now : Int) (w : World) (tr : TokenResponse) :
    World :=
  let r := save_tokens cfg now w.st tr
  ⟨r.1, some r.2⟩

/-- Outcome of one `requests.post`: a 200 with a parsed JSON body, a
non-200 status, or a raised network exception. -/
inductive HttpResult where
  | ok (body : TokenResponse)
  | err (status : Nat)
  | exn
deriving Repr, DecidableEq

/-- An HTTP outcome that is not a 200 response. -/
def HttpResult.failed : HttpResult → Bool
  | .ok _ => false
  | .err _ => true
  | .exn => true

/-- One request hitting the callback listener: the `/callback` path with
`?code=`, with `?error=`, or any other request (answered 404). -/
inductive CallbackEvent where
  | code (c : String)
  | error (e : String)
  | other
deriving Repr, DecidableEq

/-- A request arriving at the listener at absolute time `t`. -/
structure TimedEvent where
  t : Int
  ev : CallbackEvent
deriving Repr, DecidableEq

/-- The external world: the current clock and the responses the three
endpoints would give, plus the requests that will reach the listener,
in arrival order. -/
structure Env where
  now : Int
  refreshResult : HttpResult
  exchangeResult : HttpResult
  revokeResult : HttpResult
  events : List TimedEvent
deriving Repr, DecidableEq

/-- Observable calls an operation makes: the token-endpoint POST of the
refresh grant, the token-endpoint POST of the authorization-code grant,
the revoke POST, and entry into the interactive flow. -/
inductive CallEv where
  | refreshPost
  | tokenPost
  | revokePost
  | interactiveFlow
deriving Repr, DecidableEq, BEq

/-- Result of a Bool-returning operation: the returned value, the state
it leaves behind, and the calls it issued. -/
structure OpResult where
  ok : Bool
  world : World
  calls : List CallEv
deriving Repr, DecidableEq

/-- `ZohoAuth._exchange_code_for_tokens`: POSTs the code grant; on 200
saves the tokens and returns True; on non-200 or exception returns False
leaving all state untouched. -/
def exchange_code_for_tokens (cfg : Config) (env : Env) (w : World)
    (_code : String) : OpResult :=
  match env.exchangeResult with
  | .ok tr => ⟨true, save_world cfg env.now w tr, [.tokenPost]⟩
  | .err _ => ⟨false, w, [.tokenPost]⟩
  | .exn => ⟨false, w, [.tokenPost]⟩

/-- `ZohoAuth.refresh_access_token`: returns False without any network
call when no (truthy) refresh token is held; otherwise POSTs the refresh
grant once; on 200 saves the tokens and returns True; on non-200 or
exception returns False leaving all state untouched. -/
def refresh_access_token (cfg : Config) (env : Env) (w : World) : OpResult :=
  if truthyStr w.st.refresh_token then
    match env.refreshResult with
    | .ok tr => ⟨true, save_world cfg env.now w tr, [.refreshPost]⟩
    | .err _ => ⟨false, w, [.refreshPost]⟩
    | .exn => ⟨false, w, [.refreshPost]⟩
  else ⟨false, w, []⟩

/-- The `while time.time() - start_time < 300: server.handle_request()`
loop of `authorize_interactive`.  `handle_request` blocks for the next
pending request but at most `server.timeout = 300` seconds; a
`/callback` request sets `auth_code` or `auth_error`, anything else is
answered 404; the loop breaks once either field is set or 300 seconds
have elapsed since `start`.  Returns (wall time at exit, auth_code,
auth_error). -/
def serverLoop (start : Int) (t : Int) (events : List TimedEvent)
    (authCode authError : Option String) :
    Int × Option String × Option String :=
  if t < start + 300 ∧ authCode = none ∧ authError = none then
    match events with
    | [] => (t + 300, authCode, authError)
    | e :: rest =>
      if e.t ≤ t + 300 then
        match e.ev with
        | .code c => serverLoop start (max t e.t) rest (some c) authError
        | .error s => serverLoop start (max t e.t) rest authCode (some s)
        | .other => serverLoop start (max t e.t) rest authCode authError
      else (t + 300, authCode, authError)
  else (t, authCode, authError)

/-- Result of `authorize_interactive`: its Bool return value, resulting
state, issued calls, the wall time at which it returns, and whether it
ever called `server_close()` on the listener (the source never does). -/
structure InteractiveResult where
  success : Bool
  world : World
  calls : List CallEv
  finishTime : Int
  serverClosed : Bool
deriving Repr, DecidableEq

/-- `ZohoAuth.authorize_interactive`: runs the listener loop; on an
error callback or on timeout returns False with nothing changed; on a
code callback exchanges the code.  The `HTTPServer` is never explicitly
closed on any path. -/
def authorize_interactive (cfg : Config) (env : Env) (w : World) :
    InteractiveResult :=
  let r := serverLoop env.now env.now env.events none none
  match r.2.2 with
  | some _ => ⟨false, w, [], r.1, false⟩
  | none =>
    match r.2.1 with
    | none => ⟨false, w, [], r.1, false⟩
    | some c =>
      let ex := exchange_code_for_tokens cfg env w c
      ⟨ex.ok, ex.world, ex.calls, r.1, false⟩

/-- `ZohoAuth.is_token_valid`: False when the access token or the expiry
is absent or falsy; otherwise `now < expires_at - 300`. -/
def is_token_valid (now : Int) (st : AuthState) : Bool :=
  match st.access_token, st.token_expires_at with
  | some a, some e => if a = "" ∨ e = 0 then false else decide (now < e - 300)
  | some _, none => false
  | none, _ => false

/-- Result of `get_valid_access_token`: the returned token (or `None`),
the resulting state and the calls issued. -/
structure TokenResult where
  token : Option String
  world : World
  calls : List CallEv
deriving Repr, DecidableEq

/-- `ZohoAuth.get_valid_access_token`: return the held token when still
valid; else try one refresh; else escalate to the interactive flow; else
return `None`. -/
def get_valid_access_token (cfg : Config) (env : Env) (w : World) :
    TokenResult :=
  if is_token_valid env.now w.st then ⟨w.st.access_token, w, []⟩
  else
    let r1 := refresh_access_token cfg env w
    if r1.ok then ⟨r1.world.st.access_token, r1.world, r1.calls⟩
    else
      let r2 := authorize_interactive cfg env r1.world
      if r2.success then
        ⟨r2.world.st.access_token, r2.world, r1.calls ++ .interactiveFlow :: r2.calls⟩
      else ⟨none, r2.world, r1.calls ++ .interactiveFlow :: r2.calls⟩

/-- `ZohoAuth.revoke_tokens`: if a (truthy) refresh token is held, POST
it to the revoke endpoint — a non-200 status is only logged, but a raised
exception jumps to the outer handler which returns False with no cleanup
performed; otherwise clear the four fields, delete the token file (its
absence is fine) and return True. -/
def revoke_tokens (env : Env) (w : World) : OpResult :=
  if truthyStr w.st.refresh_token then
    match env.revokeResult with
    | .exn => ⟨false, w, [.revokePost]⟩
    | .ok _ => ⟨true, ⟨initState, none⟩, [.revokePost]⟩
    | .err _ => ⟨true, ⟨initState, none⟩, [.revokePost]⟩
  else ⟨true, ⟨initState, none⟩, []⟩

/-- What the token file can hold at startup: absent, unparseable (or not
a JSON object), or a parsed record. -/
inductive FileContent where
  | absent
  | malformed
  | valid (t : TokenData)
deriving Repr, DecidableEq

/-- `ZohoAuth._load_tokens`: missing file — do nothing; parse failure —
caught, an error is logged (the Bool output), fields untouched; a parsed
record populates the fields.  Total: it never raises. -/
def load_tokens (_cfg : Config) (fc : FileContent) (st : AuthState) :
    AuthState × Bool :=
  match fc with
  | .absent => (st, false)
  | .malformed => (st, true)
  | .valid t =>
      (⟨t.access_token, t.refresh_token, some t.expires_at,
        some t.api_domain⟩, false)

/-- A state holding no credentials at all. -/
def Unauthenticated (st : AuthState) : Prop :=
  st.access_token = none ∧ st.refresh_token = none ∧
    st.token_expires_at = none

instance (st : AuthState) : Decidable (Unauthenticated st) := by
  unfold Unauthenticated; infer_instance

/-! ### Byte-level model of the durable write

For the atomicity claim the write of the token file is refined to a
sequence of file-system operations.  File content is abstracted as the
list of chunks written to it, so a freshly truncated file (`[]`) is
distinguishable from any completed record. -/

/-- One file-system operation touching the token file (the target) or a
temporary sibling. -/
inductive FileOp where
  | openTrunc
  | writeChunk (c : String)
  | close
  | writeTemp (c : String)
  | renameTempToTarget
deriving Repr, DecidableEq

/-- Contents of the target file (`none` = absent) and of the temporary
file, as chunk lists. -/
structure FS where
  target : Option (List String)
  temp : List String
deriving Repr, DecidableEq

/-- Effect of one operation on the two files; a rename replaces the
target with the complete temporary in a single step. -/
def applyOp (fs : FS) : FileOp → FS
  | .openTrunc => { fs with target := some [] }
  | .writeChunk c => { fs with target := some (fs.target.getD [] ++ [c]) }
  | .close => fs
  | .writeTemp c => { fs with temp := fs.temp ++ [c] }
  | .renameTempToTarget => ⟨some fs.temp, []⟩

/-- The write `_save_tokens` performs:
`with open(self.token_file_path, 'w') as f: json.dump(token_data, f)` —
a truncating open of the target itself, a direct write into it, close.
(`json.dump` may issue several writes; even as a single chunk the
truncated intermediate state is exposed.) -/
def saveFileOps (data : String) : List FileOp :=
  [.openTrunc, .writeChunk data, .close]

/-- Modelled from the spec: the write-then-move persistence the spec
prescribes for `save` ("persists atomically (write-then-move or
equivalent)"), which the source does not contain — write the full record
to a temporary file, then rename it over the target. -/
def specAtomicSaveOps (data : String) : List FileOp :=
  [.writeTemp data, .renameTempToTarget]

/-- Every target content a concurrent reader could observe while the
operations run: the content before the first and after each one. -/
def targetViews (fs : FS) (ops : List FileOp) : List (Option (List String)) :=
  (List.scanl applyOp fs ops).map (fun s => s.target)

/-- A write sequence is atomic for concurrent readers if every
observable target content is either the initial content or the final
one — never a partially-written file. -/
def AtomicForReaders (ops : List FileOp) (fs : FS) : Prop :=
  ∀ v ∈ targetViews fs ops,
    v = fs.target ∨ v = (List.foldl applyOp fs ops).target

instance (ops : List FileOp) (fs : FS) : Decidable (AtomicForReaders ops fs) := by
  unfold AtomicForReaders; infer_instance

/-- The spec's write-then-move sequence is indeed atomic for readers:
starting from an empty temporary, a reader sees only the old content or
the complete new record. -/
theorem specAtomicSaveOps_atomic (data : String) (tgt : Option (List String)) :
    AtomicForReaders (specAtomicSaveOps data) ⟨tgt, []⟩ := by
  intro v hv
  simp [specAtomicSaveOps, targetViews, applyOp, List.scanl] at hv
  simpa [specAtomicSaveOps, applyOp] using hv

/-! ### Claim theorems -/

/-- C3: for every provider token response that omits the `refresh_token`
field, the record produced by `_save_tokens` (both the persisted record
and the in-memory fields) retains the refresh token held before the
save; a response that includes one replaces it. -/
theorem save_tokens_retains_held_refresh (cfg : Config) (now : Int)
    (st : AuthState) (tr : TokenResponse) :
    (tr.refresh_token = none →
      (save_tokens cfg now st tr).1.refresh_token = st.refresh_token ∧
      (save_tokens cfg now st tr).2.refresh_token = st.refresh_token) ∧
    (∀ r : String, tr.refresh_token = some r →
      (save_tokens cfg now st tr).1.refresh_token = some r ∧
      (save_tokens cfg now st tr).2.refresh_token = some r) := by
  constructor
  · intro h
    simp [save_tokens, getOpt, h]
  · intro r h
    simp [save_tokens, getOpt, h]

/-- Witness for C3 at concrete inputs: an empty response keeps the held
refresh token `"R0"`, a response carrying `"R1"` replaces it. -/
theorem save_tokens_retains_held_refresh_witness :
    (save_tokens ⟨"https://www.zohoapis.com", "ZohoCRM.modules.ALL"⟩ 0
        ⟨some "A", some "R0", some 100, none⟩ {}).1.refresh_token = some "R0" ∧
    (save_tokens ⟨"https://www.zohoapis.com", "ZohoCRM.modules.ALL"⟩ 0
        ⟨some "A", some "R0", some 100, none⟩
        ⟨some "A2", some "R1", some 3600, none, none, none⟩).1.refresh_token
      = some "R1" :=
  ⟨((save_tokens_retains_held_refresh _ _ _ _).1 rfl).1,
   (((save_tokens_retains_held_refresh _ _ _ _).2) "R1" rfl).1⟩

/-- C4: for every provider token response carrying a positive
`expires_in`, the `expires_at` stored by `_save_tokens` equals the time
of the save plus `expires_in` (exactly, in the integer model), in the
persisted record and the in-memory field alike. -/
theorem save_tokens_expiry_from_response (cfg : Config) (now : Int)
    (st : AuthState) (tr : TokenResponse) (n : Int)
    (h : tr.expires_in = some n) (_hpos : 0 < n) :
    (save_tokens cfg now st tr).2.expires_at = now + n ∧
    (save_tokens cfg now st tr).1.token_expires_at = some (now + n) := by
  simp [save_tokens, h]

/-- Witness for C4: a response with `expires_in = 3600` saved at time
1000 yields `expires_at = 4600`. -/
theorem save_tokens_expiry_from_response_witness :
    ((0 : Int) < 3600) ∧
    (save_tokens ⟨"https://www.zohoapis.com", "ZohoCRM.modules.ALL"⟩ 1000
        initState ⟨some "T", none, some 3600, none, none, none⟩).2.expires_at
      = 1000 + 3600 :=
  ⟨by decide,
   (save_tokens_expiry_from_response _ 1000 initState _ 3600 rfl (by decide)).1⟩

/-- C10: for every provider token response that omits `expires_in`,
`_save_tokens` still succeeds and sets `expires_at` to the time of the
save plus the default lifetime of 3600 seconds. -/
theorem save_tokens_default_expiry (cfg : Config) (now : Int)
    (st : AuthState) (tr : TokenResponse) (h : tr.expires_in = none) :
    (save_tokens cfg now st tr).2.expires_at = now + 3600 ∧
    (save_tokens cfg now st tr).1.token_expires_at = some (now + 3600) := by
  simp [save_tokens, h]

/-- Witness for C10: a response without `expires_in` saved at time 50
yields `expires_at = 3650`. -/
theorem save_tokens_default_expiry_witness :
    (save_tokens ⟨"https://www.zohoapis.com", "ZohoCRM.modules.ALL"⟩ 50
        initState ⟨some "T", none, none, none, none, none⟩).2.expires_at
      = 50 + 3600 :=
  (save_tokens_default_expiry _ 50 initState _ rfl).1

/-- C6: loading the durable record at startup never raises: a missing
file and malformed content both leave the process in the unauthenticated
startup state (no tokens held), with the parse failure logged, and
startup completes (the function is total). -/
theorem load_tokens_degrades_to_unauthenticated (cfg : Config) :
    (load_tokens cfg .absent initState).1 = initState ∧
    (load_tokens cfg .malformed initState).1 = initState ∧
    (load_tokens cfg .malformed initState).2 = true ∧
    Unauthenticated (load_tokens cfg .absent initState).1 ∧
    Unauthenticated (load_tokens cfg .malformed initState).1 := by
  refine ⟨rfl, rfl, rfl, ?_, ?_⟩ <;> exact ⟨rfl, rfl, rfl⟩

/-- C2: whenever an access token and expiry are held (truthy) and
`now < expires_at - 300`, `get_valid_access_token` returns the held
token immediately, changes nothing and performs no network call and no
interactive flow. -/
theorem get_valid_access_token_fresh (cfg : Config) (env : Env) (w : World)
    (a : String) (e : Int)
    (ha : w.st.access_token = some a) (hne : a ≠ "")
    (he : w.st.token_expires_at = some e)
    (hnow : env.now < e - 300) (h0 : 0 ≤ env.now) :
    get_valid_access_token cfg env w = ⟨some a, w, []⟩ := by
  have he0 : ¬ (e = 0) := by omega
  have hval : is_token_valid env.now w.st = true := by
    simp [is_token_valid, ha, he, hne, he0, hnow]
  simp [get_valid_access_token, hval, ha]

/-- Witness for C2: with a held token `"TOK"` expiring at 1000 and the
clock at 0, the held token is returned with an empty call list even
though every endpoint would fail. -/
theorem get_valid_access_token_fresh_witness :
    ((0 : Int) < 1000 - 300) ∧
    get_valid_access_token ⟨"https://www.zohoapis.com", "ZohoCRM.modules.ALL"⟩
        ⟨0, .exn, .exn, .exn, []⟩
        ⟨⟨some "TOK", some "R", some 1000, none⟩, none⟩
      = ⟨some "TOK", ⟨⟨some "TOK", some "R", some 1000, none⟩, none⟩, []⟩ :=
  ⟨by decide,
   get_valid_access_token_fresh _ _ _ "TOK" 1000 rfl (by decide) rfl
     (by decide) (by decide)⟩

/-- The interactive flow issues at most the single code-exchange POST:
its call list is `[]` or `[.tokenPost]`. -/
theorem interactive_calls (cfg : Config) (env : Env) (w : World) :
    (authorize_interactive cfg env w).calls = [] ∨
    (authorize_interactive cfg env w).calls = [.tokenPost] := by
  unfold authorize_interactive
  rcases hE : (serverLoop env.now env.now env.events none none).2.2 with _ | e
  · rcases hC : (serverLoop env.now env.now env.events none none).2.1 with _ | c
    · simp [hE, hC]
    · cases hx : env.exchangeResult <;>
        simp [hE, hC, exchange_code_for_tokens, hx]
  · simp [hE]

/-- When the refresh attempt does not succeed, it leaves the state
untouched. -/
theorem refresh_world_of_not_ok (cfg : Config) (env : Env) (w : World)
    (h : (refresh_access_token cfg env w).ok = false) :
    (refresh_access_token cfg env w).world = w := by
  unfold refresh_access_token at h ⊢
  by_cases ht : truthyStr w.st.refresh_token
  · cases hres : env.refreshResult <;> simp_all
  · simp [ht]

/-- C1: when the held token is absent or stale, `get_valid_access_token`
first attempts exactly one refresh POST when a (truthy) refresh token is
held; it enters the interactive flow exactly when no refresh token is
held or the refresh attempt fails; and when the interactive flow also
fails it returns `none` (the embedding is total — nothing is raised). -/
theorem get_valid_access_token_escalation (cfg : Config) (env : Env)
    (w : World) (h : is_token_valid env.now w.st = false) :
    (truthyStr w.st.refresh_token = true →
      (get_valid_access_token cfg env w).calls.count CallEv.refreshPost = 1 ∧
      (get_valid_access_token cfg env w).calls.head? = some CallEv.refreshPost) ∧
    (CallEv.interactiveFlow ∈ (get_valid_access_token cfg env w).calls ↔
      (refresh_access_token cfg env w).ok = false) ∧
    ((refresh_access_token cfg env w).ok = false →
      (authorize_interactive cfg env w).success = false →
      (get_valid_access_token cfg env w).token = none) := by
  have hic := interactive_calls cfg env w
  by_cases ht : truthyStr w.st.refresh_token
  · cases hres : env.refreshResult with
    | ok tr =>
        simp [get_valid_access_token, refresh_access_token, h, ht, hres]
        decide
    | err s =>
        cases hs : (authorize_interactive cfg env w).success <;>
          rcases hic with hc | hc <;>
            simp [get_valid_access_token, refresh_access_token, h, ht, hres,
              hs, hc, List.count_cons, List.count_append] <;>
            decide
    | exn =>
        cases hs : (authorize_interactive cfg env w).success <;>
          rcases hic with hc | hc <;>
            simp [get_valid_access_token, refresh_access_token, h, ht, hres,
              hs, hc, List.count_cons, List.count_append] <;>
            decide
  · cases hs : (authorize_interactive cfg env w).success <;>
      rcases hic with hc | hc <;>
        simp [get_valid_access_token, refresh_access_token, h, ht, hs, hc]

/-- Witness for C1: with an expired token, a held refresh token, a
failing refresh endpoint and a silent listener, exactly one refresh POST
is counted and the final result is `none`. -/
theorem get_valid_access_token_escalation_witness :
    is_token_valid (1000 : Int) ⟨some "OLD", some "R", some 100, none⟩ = false ∧
    (get_valid_access_token ⟨"https://www.zohoapis.com", "ZohoCRM.modules.ALL"⟩
        ⟨1000, .err 400, .err 400, .exn, []⟩
        ⟨⟨some "OLD", some "R", some 100, none⟩, none⟩).calls.count
        CallEv.refreshPost = 1 ∧
    (get_valid_access_token ⟨"https://www.zohoapis.com", "ZohoCRM.modules.ALL"⟩
        ⟨1000, .err 400, .err 400, .exn, []⟩
        ⟨⟨some "OLD", some "R", some 100, none⟩, none⟩).token = none :=
  ⟨by decide,
   ((get_valid_access_token_escalation _ _ _ (by decide)).1 (by decide)).1,
   (get_valid_access_token_escalation _ _ _ (by decide)).2.2 (by decide)
     (by decide)⟩

/-- When the listener loop resolves with an error callback,
`authorize_interactive` returns False and touches nothing. -/
theorem interactive_error_result (cfg : Config) (env : Env) (w : World)
    (e : String)
    (hE : (serverLoop env.now env.now env.events none none).2.2 = some e) :
    authorize_interactive cfg env w =
      ⟨false, w, [], (serverLoop env.now env.now env.events none none).1,
       false⟩ := by
  simp [authorize_interactive, hE]

/-- A refresh attempt against a non-200 or raising endpoint reports
failure. -/
theorem refresh_not_ok_of_failed (cfg : Config) (env : Env) (w : World)
    (hf : env.refreshResult.failed = true) :
    (refresh_access_token cfg env w).ok = false := by
  unfold refresh_access_token
  by_cases ht : truthyStr w.st.refresh_token <;>
    cases hres : env.refreshResult <;> simp_all [HttpResult.failed]

/-- C5: a failed token exchange — non-200 or network error, in the
refresh grant or the authorization-code grant — leaves the in-memory
fields and the durable record unchanged; and when the token is stale,
the refresh fails and the interactive flow resolves with an error
callback, `get_valid_access_token` returns `none` with no state
mutation at all. -/
theorem failed_exchange_leaves_state (cfg : Config) (env : Env) (w : World)
    (c : String) :
    (env.refreshResult.failed = true →
      (refresh_access_token cfg env w).world = w) ∧
    (env.exchangeResult.failed = true →
      (exchange_code_for_tokens cfg env w c).world = w) ∧
    (∀ e : String,
      (serverLoop env.now env.now env.events none none).2.2 = some e →
      (authorize_interactive cfg env w).success = false ∧
      (authorize_interactive cfg env w).world = w) ∧
    (is_token_valid env.now w.st = false →
      env.refreshResult.failed = true →
      (serverLoop env.now env.now env.events none none).2.2.isSome = true →
      (get_valid_access_token cfg env w).token = none ∧
      (get_valid_access_token cfg env w).world = w) := by
  refine ⟨?_, ?_, ?_, ?_⟩
  · intro hf
    exact refresh_world_of_not_ok cfg env w (refresh_not_ok_of_failed cfg env w hf)
  · intro hf
    cases hx : env.exchangeResult <;>
      simp_all [exchange_code_for_tokens, HttpResult.failed]
  · intro e hE
    rw [interactive_error_result cfg env w e hE]
    exact ⟨rfl, rfl⟩
  · intro hv hf hs
    have hok := refresh_not_ok_of_failed cfg env w hf
    have hw := refresh_world_of_not_ok cfg env w hok
    rcases hsome : (serverLoop env.now env.now env.events none none).2.2 with _ | e
    · rw [hsome] at hs; simp at hs
    · have hr2 := interactive_error_result cfg env w e hsome
      simp [get_valid_access_token, hv, hok, hw, hr2]

/-- Witness for C5: a 500 refresh response leaves the world unchanged,
and with an `access_denied` error callback the whole supervisor call
returns `none` without mutating anything. -/
theorem failed_exchange_leaves_state_witness :
    (HttpResult.err 500).failed = true ∧
    (refresh_access_token ⟨"https://www.zohoapis.com", "ZohoCRM.modules.ALL"⟩
        ⟨0, .err 500, .exn, .exn, [⟨0, .error "access_denied"⟩]⟩
        ⟨⟨some "A", some "R", some 100, none⟩,
         some ⟨some "A", some "R", 100, "d", "Bearer", "s"⟩⟩).world
      = ⟨⟨some "A", some "R", some 100, none⟩,
         some ⟨some "A", some "R", 100, "d", "Bearer", "s"⟩⟩ ∧
    (get_valid_access_token ⟨"https://www.zohoapis.com", "ZohoCRM.modules.ALL"⟩
        ⟨0, .err 500, .exn, .exn, [⟨0, .error "access_denied"⟩]⟩
        ⟨⟨some "A", some "R", some 100, none⟩,
         some ⟨some "A", some "R", 100, "d", "Bearer", "s"⟩⟩).token = none ∧
    (get_valid_access_token ⟨"https://www.zohoapis.com", "ZohoCRM.modules.ALL"⟩
        ⟨0, .err 500, .exn, .exn, [⟨0, .error "access_denied"⟩]⟩
        ⟨⟨some "A", some "R", some 100, none⟩,
         some ⟨some "A", some "R", 100, "d", "Bearer", "s"⟩⟩).world
      = ⟨⟨some "A", some "R", some 100, none⟩,
         some ⟨some "A", some "R", 100, "d", "Bearer", "s"⟩⟩ :=
  ⟨by decide,
   (failed_exchange_leaves_state _ _ _ "x").1 (by decide),
   ((failed_exchange_leaves_state _ _ _ "x").2.2.2 (by decide) (by decide)
     (by decide)).1,
   ((failed_exchange_leaves_state _ _ _ "x").2.2.2 (by decide) (by decide)
     (by decide)).2⟩

/-- C7 counterexample: when the revoke POST raises a network error, the
in-memory fields are NOT cleared and the durable record is NOT deleted —
refuting the claim that local cleanup happens for every outcome of the
revoke call. -/
theorem revoke_tokens_counterexample :
    ¬ ((revoke_tokens ⟨0, .exn, .exn, .exn, []⟩
          ⟨⟨some "A", some "R", some 100, some "d"⟩,
           some ⟨some "A", some "R", 100, "d", "Bearer", "s"⟩⟩).world
        = ⟨initState, none⟩) := by decide

/-- C7 amended: for every revoke-endpoint response (2xx or non-2xx),
`revoke_tokens` clears all in-memory fields, deletes the durable record
(its absence being success) and returns True — likewise when no refresh
token is held, with no revoke POST at all; but when the revoke POST
raises a network error, it returns False and leaves both the in-memory
fields and the durable record unchanged. -/
theorem revoke_tokens_behavior (env : Env) (w : World) :
    (env.revokeResult ≠ .exn →
      revoke_tokens env w =
        ⟨true, ⟨initState, none⟩,
         if truthyStr w.st.refresh_token then [.revokePost] else []⟩) ∧
    (env.revokeResult = .exn → truthyStr w.st.refresh_token = true →
      revoke_tokens env w = ⟨false, w, [.revokePost]⟩) ∧
    (truthyStr w.st.refresh_token = false →
      revoke_tokens env w = ⟨true, ⟨initState, none⟩, []⟩) := by
  by_cases ht : truthyStr w.st.refresh_token <;>
    cases hres : env.revokeResult <;> simp_all [revoke_tokens]

/-- Witness for the amended C7: a 500 revoke response still clears the
fields and deletes the record, while a raising POST leaves everything in
place. -/
theorem revoke_tokens_behavior_witness :
    revoke_tokens ⟨0, .exn, .exn, .err 500, []⟩
        ⟨⟨some "A", some "R", some 100, some "d"⟩,
         some ⟨some "A", some "R", 100, "d", "Bearer", "s"⟩⟩
      = ⟨true, ⟨initState, none⟩, [.revokePost]⟩ ∧
    revoke_tokens ⟨0, .exn, .exn, .exn, []⟩
        ⟨⟨some "A", some "R", some 100, some "d"⟩,
         some ⟨some "A", some "R", 100, "d", "Bearer", "s"⟩⟩
      = ⟨false, ⟨⟨some "A", some "R", some 100, some "d"⟩,
          some ⟨some "A", some "R", 100, "d", "Bearer", "s"⟩⟩,
         [.revokePost]⟩ :=
  ⟨by
    have h := (revoke_tokens_behavior ⟨0, .exn, .exn, .err 500, []⟩
      ⟨⟨some "A", some "R", some 100, some "d"⟩,
       some ⟨some "A", some "R", 100, "d", "Bearer", "s"⟩⟩).1 (by decide)
    simpa using h,
   (revoke_tokens_behavior _ _).2.1 rfl (by decide)⟩

/-- A listener request that would resolve the flow: a `/callback` with
`code` or with `error`. -/
def qualifying : CallbackEvent → Bool
  | .code _ => true
  | .error _ => true
  | .other => false

/-- When no qualifying request ever arrives, the listener loop sets
neither `auth_code` nor `auth_error`, and — because each
`handle_request` can itself block for up to the 300-second socket
timeout after the loop deadline was last checked — exits strictly before
`start + 600`, not necessarily by `start + 300`. -/
theorem serverLoop_nil (start t : Int) (aC aE : Option String) :
    serverLoop start t [] aC aE =
      if t < start + 300 ∧ aC = none ∧ aE = none then (t + 300, aC, aE)
      else (t, aC, aE) := by
  rw [serverLoop]

theorem serverLoop_cons (start t : Int) (e : TimedEvent)
    (rest : List TimedEvent) (aC aE : Option String) :
    serverLoop start t (e :: rest) aC aE =
      if t < start + 300 ∧ aC = none ∧ aE = none then
        if e.t ≤ t + 300 then
          match e.ev with
          | .code c => serverLoop start (max t e.t) rest (some c) aE
          | .error s => serverLoop start (max t e.t) rest aC (some s)
          | .other => serverLoop start (max t e.t) rest aC aE
        else (t + 300, aC, aE)
      else (t, aC, aE) := by
  rw [serverLoop]

theorem serverLoop_no_qualifying (start : Int) (events : List TimedEvent) :
    ∀ t : Int, (∀ e ∈ events, qualifying e.ev = false) → t < start + 600 →
      (serverLoop start t events none none).2.1 = none ∧
      (serverLoop start t events none none).2.2 = none ∧
      (serverLoop start t events none none).1 < start + 600 := by
  induction events with
  | nil =>
      intro t hq ht
      rw [serverLoop_nil]
      split_ifs with hcond
      · obtain ⟨h1, -, -⟩ := hcond
        exact ⟨rfl, rfl, by show t + 300 < start + 600; omega⟩
      · exact ⟨rfl, rfl, ht⟩
  | cons e rest ih =>
      intro t hq ht
      have hqe : qualifying e.ev = false := hq e (List.mem_cons_self e rest)
      have hqr : ∀ x ∈ rest, qualifying x.ev = false :=
        fun x hx => hq x (List.mem_cons_of_mem e hx)
      rw [serverLoop_cons]
      split_ifs with hcond harr
      · obtain ⟨h1, -, -⟩ := hcond
        cases hev : e.ev with
        | code c => rw [hev] at hqe; simp [qualifying] at hqe
        | error s => rw [hev] at hqe; simp [qualifying] at hqe
        | other =>
            have hmax : max t e.t < start + 600 :=
              lt_of_le_of_lt (max_le (by omega) harr) (by omega)
            exact ih (max t e.t) hqr hmax
      · obtain ⟨h1, -, -⟩ := hcond
        exact ⟨rfl, rfl, by show t + 300 < start + 600; omega⟩
      · exact ⟨rfl, rfl, ht⟩

/-- C8 counterexample: with a single non-qualifying request arriving at
second 299, the flow only returns at second 599 — past the claimed
300-second hard deadline — and on no path does the source ever close the
listener (`server_close()` is never called), refuting the claim that
the wait is bounded by the 300s deadline and that the socket is
released. -/
theorem authorize_interactive_timeout_counterexample :
    ¬ (((authorize_interactive ⟨"https://www.zohoapis.com", "s"⟩
            ⟨0, .exn, .exn, .exn, [⟨299, .other⟩]⟩
            ⟨initState, none⟩).finishTime ≤ 0 + 300) ∧
       (authorize_interactive ⟨"https://www.zohoapis.com", "s"⟩
            ⟨0, .exn, .exn, .exn, [⟨299, .other⟩]⟩
            ⟨initState, none⟩).serverClosed = true) := by decide

/-- C8 amended: if no qualifying redirect (neither `code` nor `error`)
ever arrives at the callback listener, the interactive flow returns
failure (False) without mutating state or issuing network calls;
control returns strictly before `start + 600` seconds (the 300-second
loop deadline plus at most one socket-timeout-bounded `handle_request`),
not necessarily within 300 seconds; and the listener socket is never
explicitly closed by the flow. -/
theorem authorize_interactive_timeout_behavior (cfg : Config) (env : Env)
    (w : World) (hq : ∀ e ∈ env.events, qualifying e.ev = false) :
    (authorize_interactive cfg env w).success = false ∧
    (authorize_interactive cfg env w).world = w ∧
    (authorize_interactive cfg env w).calls = [] ∧
    (authorize_interactive cfg env w).finishTime < env.now + 600 ∧
    (authorize_interactive cfg env w).serverClosed = false := by
  obtain ⟨hc, he, hlt⟩ :=
    serverLoop_no_qualifying env.now env.events env.now hq (by omega)
  simp [authorize_interactive, hc, he]
  exact hlt

/-- Witness for the amended C8: the second-299 straggler scenario ends
in failure at time 599 < 600 with the listener never closed. -/
theorem authorize_interactive_timeout_behavior_witness :
    (∀ e ∈ ([⟨299, .other⟩] : List TimedEvent), qualifying e.ev = false) ∧
    (authorize_interactive ⟨"https://www.zohoapis.com", "s"⟩
        ⟨0, .exn, .exn, .exn, [⟨299, .other⟩]⟩
        ⟨initState, none⟩).success = false ∧
    (authorize_interactive ⟨"https://www.zohoapis.com", "s"⟩
        ⟨0, .exn, .exn, .exn, [⟨299, .other⟩]⟩
        ⟨initState, none⟩).finishTime < 0 + 600 ∧
    (authorize_interactive ⟨"https://www.zohoapis.com", "s"⟩
        ⟨0, .exn, .exn, .exn, [⟨299, .other⟩]⟩
        ⟨initState, none⟩).serverClosed = false :=
  ⟨by decide,
   (authorize_interactive_timeout_behavior _ _ _ (by decide)).1,
   (authorize_interactive_timeout_behavior _ _ _ (by decide)).2.2.2.1,
   (authorize_interactive_timeout_behavior _ _ _ (by decide)).2.2.2.2⟩

/-- C9 counterexample: the write `_save_tokens` performs is a truncating
in-place open followed by the dump, so a concurrent reader of the token
file can observe the just-truncated (empty) file — the persist is not
atomic. -/
theorem save_write_atomicity_counterexample :
    ¬ AtomicForReaders (saveFileOps "NEW") ⟨some ["OLD"], []⟩ := by decide

/-- C9 amended: `_save_tokens` writes the record by opening the target
file itself for truncating write and dumping into it directly — its
operation sequence contains no rename of a temporary — so whenever the
file previously held any content, a concurrent reader can observe a
partially-written (truncated-empty) file. -/
theorem save_write_truncates_in_place (data : String) (l : List String)
    (hl : l ≠ []) :
    ¬ AtomicForReaders (saveFileOps data) ⟨some l, []⟩ ∧
    FileOp.renameTempToTarget ∉ saveFileOps data := by
  constructor
  · intro hat
    have hmem : (some ([] : List String)) ∈
        targetViews ⟨some l, []⟩ (saveFileOps data) := by
      simp [targetViews, saveFileOps, applyOp, List.scanl]
    have h := hat _ hmem
    simp [saveFileOps, applyOp] at h
    exact hl h
  · simp [saveFileOps]

/-- Witness for the amended C9: with prior content `["OLD"]` and record
`"NEW"`, the write sequence is not reader-atomic and contains no
rename. -/
theorem save_write_truncates_in_place_witness :
    (["OLD"] : List String) ≠ [] ∧
    (¬ AtomicForReaders (saveFileOps "NEW") ⟨some ["OLD"], []⟩ ∧
     FileOp.renameTempToTarget ∉ saveFileOps "NEW") :=
  ⟨by decide, save_write_truncates_in_place "NEW" ["OLD"] (by decide)⟩

end ZohoCRMMCP
